import Mathlib

/-!
Verification of the SVR3 operation-dispatch layer
(src/rust/net/src/svr3/traits.rs).

The file embeds the blanket implementations of the four operation traits
(Backup, Restore, Remove, Query) that any Svr3Connect provider gains.
Asynchrony is embedded by explicit state passing: the provider's connect
calls are modelled as an outcome stream indexed by a call counter (so that
"connect is called exactly once per operation" is observable), and the
Protocol Engine entry points of ppss_ops are an abstract record of
state-transformer functions over an opaque world state.
-/

namespace Svr3

/-- Rust &str password; opaque to this layer. -/
abbrev Password := String

/-- Rust [u8; 32]: byte values as natural numbers, exactly 32 of them. -/
abbrev Secret := { l : List Nat // l.length = 32 }

/-- Rust std::num::NonZeroU32. -/
abbrev NonZeroU32 := { n : Nat // 0 < n ∧ n < 2 ^ 32 }

/-- Opaque serialized share set produced by backup (super::OpaqueMaskedShareSet). -/
structure OpaqueMaskedShareSet where
  serialized : List Nat
deriving DecidableEq

/-- Opaque outcome of a successful restore (libsignal_svr3::EvaluationResult). -/
structure EvaluationResult where
  value : List Nat
deriving DecidableEq

/-- Modelled from the spec: enclave::Error, the connection-establishment
failure domain (crate::enclave is not under src/); an opaque failure value. -/
structure EnclaveError where
  message : String
deriving DecidableEq

/-- Modelled from the spec: super::Error (svr3 error union, not under src/);
spec section 7 describes a flat union of the connection domain and the
protocol domain, forwarded verbatim. -/
inductive Error where
  | connection (e : EnclaveError)
  | protocol (message : String)
deriving DecidableEq

/-- Client-side instrumentation state: how many connect() calls the provider
has served so far. -/
structure ProvState where
  connectCount : Nat
deriving DecidableEq

/-- A connection provider (the Svr3Connect trait): the outcome of its k-th
connect() call, either a fresh connection bundle of type C or an enclave
error. -/
structure Svr3Connect (C : Type) where
  connectOutcomes : Nat → Except EnclaveError C

/-- One connect() call: consumes the next outcome of the stream and advances
the call counter. -/
def Svr3Connect.connect {C : Type} (p : Svr3Connect C) (s : ProvState) :
    Except EnclaveError C × ProvState :=
  (p.connectOutcomes s.connectCount, ⟨s.connectCount + 1⟩)

/-- The four Protocol Engine entry points (ppss_ops::do_backup, do_restore,
do_remove, do_query), abstract: each is a function of the connection bundle
and its declared parameters, transforming an opaque world state of type W;
backup and restore also thread the caller-supplied rng of type R. -/
structure PpssOps (C R W : Type) where
  do_backup : C → Password → Secret → NonZeroU32 → R → W →
    (Except Error OpaqueMaskedShareSet × R) × W
  do_restore : C → Password → OpaqueMaskedShareSet → R → W →
    (Except Error EvaluationResult × R) × W
  do_remove : C → W → Except Error Unit × W
  do_query : C → W → Except Error Nat × W

/-- Blanket impl Backup for T where T: Svr3Connect
(src/rust/net/src/svr3/traits.rs lines 65-87): call connect(), propagate its
error through the unified Error type, otherwise hand connections and all
parameters to ppss_ops::do_backup and return its result. -/
def backup {C R W : Type} (p : Svr3Connect C) (eng : PpssOps C R W)
    (password : Password) (secret : Secret) (max_tries : NonZeroU32)
    (rng : R) (s : ProvState) (w : W) :
    (Except Error OpaqueMaskedShareSet × R) × ProvState × W :=
  match p.connect s with
  | (Except.error e, s1) => ((Except.error (Error.connection e), rng), s1, w)
  | (Except.ok conns, s1) =>
      let r := eng.do_backup conns password secret max_tries rng w
      (r.1, s1, r.2)

/-- Blanket impl Restore for T (traits.rs lines 89-104). -/
def restore {C R W : Type} (p : Svr3Connect C) (eng : PpssOps C R W)
    (password : Password) (share_set : OpaqueMaskedShareSet)
    (rng : R) (s : ProvState) (w : W) :
    (Except Error EvaluationResult × R) × ProvState × W :=
  match p.connect s with
  | (Except.error e, s1) => ((Except.error (Error.connection e), rng), s1, w)
  | (Except.ok conns, s1) =>
      let r := eng.do_restore conns password share_set rng w
      (r.1, s1, r.2)

/-- Blanket impl Remove for T (traits.rs lines 106-115). -/
def remove {C R W : Type} (p : Svr3Connect C) (eng : PpssOps C R W)
    (s : ProvState) (w : W) :
    Except Error Unit × ProvState × W :=
  match p.connect s with
  | (Except.error e, s1) => (Except.error (Error.connection e), s1, w)
  | (Except.ok conns, s1) =>
      let r := eng.do_remove conns w
      (r.1, s1, r.2)

/-- Blanket impl Query for T (traits.rs lines 117-126). -/
def query {C R W : Type} (p : Svr3Connect C) (eng : PpssOps C R W)
    (s : ProvState) (w : W) :
    Except Error Nat × ProvState × W :=
  match p.connect s with
  | (Except.error e, s1) => (Except.error (Error.connection e), s1, w)
  | (Except.ok conns, s1) =>
      let r := eng.do_query conns w
      (r.1, s1, r.2)

/-- Bytewise XOR masking of a byte list, as PPSS mask application. -/
def maskBytes (l m : List Nat) : List Nat := List.zipWith Nat.xor l m

/-- Modelled from the spec: the mask that ppss_ops::do_backup derives from the
caller-supplied rng (32 fresh bytes); the rng is a byte stream Nat to Nat. -/
def genMask (rng : Nat → Nat) : List Nat := (List.range 32).map rng

/-- Modelled from the spec: the server-side record behind one backup — the
password bound at backup time, the mask held by the server quorum, and the
remaining-tries counter (sections 1, 3 and 4.2 of the spec; ppss_ops and the
server logic are not under src/). -/
structure BackupRecord where
  password : Password
  mask : List Nat
  tries : Nat
deriving DecidableEq

/-- Modelled from the spec: the world state the Protocol Engine acts on — at
most one stored backup per server quorum. -/
structure ServerState where
  stored : Option BackupRecord
deriving DecidableEq

/-- Modelled from the spec: the Protocol Engine (ppss_ops::do_backup,
do_restore, do_remove, do_query — src/rust/net/src/svr3/ppss_ops.rs is not
under src/). backup masks the secret with fresh rng bytes, stores password,
mask and the try-limit server-side, and returns the masked share set; restore
checks tries and password, decrements the counter and unmasks; remove deletes
the record; query reads the remaining-tries counter and changes nothing. -/
def specEngine (C : Type) : PpssOps C (Nat → Nat) ServerState where
  do_backup := fun _ password secret max_tries rng _ =>
    let mask := genMask rng
    ((Except.ok ⟨maskBytes secret.val mask⟩, fun n => rng (n + 32)),
      ⟨some ⟨password, mask, max_tries.val⟩⟩)
  do_restore := fun _ password ss rng w =>
    match w.stored with
    | none => ((Except.error (Error.protocol "no backup"), rng), w)
    | some r =>
        if r.tries = 0 then
          ((Except.error (Error.protocol "tries exhausted"), rng), w)
        else if r.password = password then
          ((Except.ok ⟨maskBytes ss.serialized r.mask⟩, rng),
            ⟨some ⟨r.password, r.mask, r.tries - 1⟩⟩)
        else
          ((Except.error (Error.protocol "password mismatch"), rng),
            ⟨some ⟨r.password, r.mask, r.tries - 1⟩⟩)
  do_remove := fun _ _ => (Except.ok (), ⟨none⟩)
  do_query := fun _ w =>
    match w.stored with
    | none => (Except.error (Error.protocol "no backup"), w)
    | some r => (Except.ok r.tries, w)

/-- Masking twice with the same equally long mask is the identity. -/
theorem maskBytes_maskBytes (l : List Nat) :
    ∀ m : List Nat, l.length = m.length → maskBytes (maskBytes l m) m = l := by
  induction l with
  | nil => intro m _; simp [maskBytes]
  | cons a t ih =>
      intro m hm
      cases m with
      | nil => simp at hm
      | cons b tm =>
          simp only [maskBytes, List.zipWith_cons_cons, List.cons.injEq]
          refine ⟨?_, ih tm (by simpa using hm)⟩
          show a ^^^ b ^^^ b = a
          rw [Nat.xor_assoc, Nat.xor_self, Nat.xor_zero]

/-- The generated mask has exactly 32 bytes. -/
theorem genMask_length (rng : Nat → Nat) : (genMask rng).length = 32 := by
  simp [genMask]

/- Concrete instances used by the witness theorems. -/

/-- A provider whose connect() always succeeds with connection bundle 7. -/
def okProvider : Svr3Connect Nat := ⟨fun _ => Except.ok 7⟩

/-- A provider whose connect() always fails. -/
def failProvider : Svr3Connect Nat := ⟨fun _ => Except.error ⟨"transport down"⟩⟩

/-- A concrete engine over Nat connections, Nat rng and Nat world. -/
def demoEngine : PpssOps Nat Nat Nat where
  do_backup := fun _ _ _ _ rng w => ((Except.ok ⟨[1, 2, 3]⟩, rng + 1), w + 10)
  do_restore := fun _ _ ss rng w => ((Except.ok ⟨ss.serialized⟩, rng + 2), w + 20)
  do_remove := fun _ w => (Except.ok (), w + 30)
  do_query := fun _ w => (Except.ok 5, w + 40)

/-- A concrete password. -/
def passwordW : Password := "correct horse"

/-- A concrete 32-byte secret. -/
def secretW : Secret := ⟨List.replicate 32 0, by simp⟩

/-- A concrete share set. -/
def shareSetW : OpaqueMaskedShareSet := ⟨[9, 9]⟩

/-- A concrete non-zero try limit. -/
def maxTriesW : NonZeroU32 := ⟨10, by decide⟩

/-- C1: each of backup, restore, remove and query first calls the provider's
connect() (its outcome is read at the current call index and the counter
advances), and on success forwards the call's parameters together with the
fresh connections to the matching engine entry point, returning the engine's
result or error to the caller untouched. -/
theorem dispatch_forwards_to_engine
    {C R W : Type} (p : Svr3Connect C) (eng : PpssOps C R W)
    (password : Password) (secret : Secret) (max_tries : NonZeroU32)
    (share_set : OpaqueMaskedShareSet) (rng : R) (s : ProvState) (w : W)
    (conns : C) (h : p.connectOutcomes s.connectCount = Except.ok conns) :
    backup p eng password secret max_tries rng s w =
      ((eng.do_backup conns password secret max_tries rng w).1,
        ⟨s.connectCount + 1⟩,
        (eng.do_backup conns password secret max_tries rng w).2) ∧
    restore p eng password share_set rng s w =
      ((eng.do_restore conns password share_set rng w).1,
        ⟨s.connectCount + 1⟩,
        (eng.do_restore conns password share_set rng w).2) ∧
    remove p eng s w =
      ((eng.do_remove conns w).1, ⟨s.connectCount + 1⟩,
        (eng.do_remove conns w).2) ∧
    query p eng s w =
      ((eng.do_query conns w).1, ⟨s.connectCount + 1⟩,
        (eng.do_query conns w).2) := by
  refine ⟨?_, ?_, ?_, ?_⟩ <;>
    simp [backup, restore, remove, query, Svr3Connect.connect, h]

/-- Witness for C1 at a concrete provider, engine and parameters. -/
theorem dispatch_forwards_to_engine_witness :
    backup okProvider demoEngine passwordW secretW maxTriesW 0 ⟨0⟩ 0 =
      ((Except.ok ⟨[1, 2, 3]⟩, 1), ⟨1⟩, 10) ∧
    restore okProvider demoEngine passwordW shareSetW 0 ⟨0⟩ 0 =
      ((Except.ok ⟨[9, 9]⟩, 2), ⟨1⟩, 20) ∧
    remove okProvider demoEngine ⟨0⟩ 0 = (Except.ok (), ⟨1⟩, 30) ∧
    query okProvider demoEngine ⟨0⟩ 0 = (Except.ok 5, ⟨1⟩, 40) :=
  dispatch_forwards_to_engine okProvider demoEngine passwordW secretW
    maxTriesW shareSetW 0 ⟨0⟩ 0 7 rfl

/-- C3: when connect() fails, every operation returns that connection error,
wrapped into the unified Error type, and the engine is never invoked: the
returned world state is untouched (no engine call happened), no ShareSet or
EvaluationResult reaches the caller, and the result does not depend on the
engine at all. -/
theorem connect_failure_short_circuits
    {C R W : Type} (p : Svr3Connect C) (eng : PpssOps C R W)
    (password : Password) (secret : Secret) (max_tries : NonZeroU32)
    (share_set : OpaqueMaskedShareSet) (rng : R) (s : ProvState) (w : W)
    (e : EnclaveError)
    (h : p.connectOutcomes s.connectCount = Except.error e) :
    backup p eng password secret max_tries rng s w =
      ((Except.error (Error.connection e), rng), ⟨s.connectCount + 1⟩, w) ∧
    restore p eng password share_set rng s w =
      ((Except.error (Error.connection e), rng), ⟨s.connectCount + 1⟩, w) ∧
    remove p eng s w =
      (Except.error (Error.connection e), ⟨s.connectCount + 1⟩, w) ∧
    query p eng s w =
      (Except.error (Error.connection e), ⟨s.connectCount + 1⟩, w) := by
  refine ⟨?_, ?_, ?_, ?_⟩ <;>
    simp [backup, restore, remove, query, Svr3Connect.connect, h]

/-- Witness for C3 at a concrete failing provider. -/
theorem connect_failure_short_circuits_witness :
    backup failProvider demoEngine passwordW secretW maxTriesW 0 ⟨0⟩ 0 =
      ((Except.error (Error.connection ⟨"transport down"⟩), 0), ⟨1⟩, 0) ∧
    restore failProvider demoEngine passwordW shareSetW 0 ⟨0⟩ 0 =
      ((Except.error (Error.connection ⟨"transport down"⟩), 0), ⟨1⟩, 0) ∧
    remove failProvider demoEngine ⟨0⟩ 0 =
      (Except.error (Error.connection ⟨"transport down"⟩), ⟨1⟩, 0) ∧
    query failProvider demoEngine ⟨0⟩ 0 =
      (Except.error (Error.connection ⟨"transport down"⟩), ⟨1⟩, 0) :=
  connect_failure_short_circuits failProvider demoEngine passwordW secretW
    maxTriesW shareSetW 0 ⟨0⟩ 0 ⟨"transport down"⟩ rfl

/-- C4: every operation call is atomic at its interface: its result component
is either one complete ok value (a ShareSet for backup, an EvaluationResult
for restore, a try-count for query, unit for remove) or one error value —
never anything partial. -/
theorem operations_atomic
    {C R W : Type} (p : Svr3Connect C) (eng : PpssOps C R W)
    (password : Password) (secret : Secret) (max_tries : NonZeroU32)
    (share_set : OpaqueMaskedShareSet) (rng : R) (s : ProvState) (w : W) :
    ((∃ v : OpaqueMaskedShareSet,
        (backup p eng password secret max_tries rng s w).1.1 = Except.ok v) ∨
      (∃ e : Error,
        (backup p eng password secret max_tries rng s w).1.1 =
          Except.error e)) ∧
    ((∃ v : EvaluationResult,
        (restore p eng password share_set rng s w).1.1 = Except.ok v) ∨
      (∃ e : Error,
        (restore p eng password share_set rng s w).1.1 = Except.error e)) ∧
    ((remove p eng s w).1 = Except.ok () ∨
      (∃ e : Error, (remove p eng s w).1 = Except.error e)) ∧
    ((∃ v : Nat, (query p eng s w).1 = Except.ok v) ∨
      (∃ e : Error, (query p eng s w).1 = Except.error e)) := by
  refine ⟨?_, ?_, ?_, ?_⟩
  · rcases hb : (backup p eng password secret max_tries rng s w).1.1 with e | v
    · exact Or.inr ⟨e, rfl⟩
    · exact Or.inl ⟨v, rfl⟩
  · rcases hr : (restore p eng password share_set rng s w).1.1 with e | v
    · exact Or.inr ⟨e, rfl⟩
    · exact Or.inl ⟨v, rfl⟩
  · rcases hm : (remove p eng s w).1 with e | v
    · exact Or.inr ⟨e, rfl⟩
    · exact Or.inl rfl
  · rcases hq : (query p eng s w).1 with e | v
    · exact Or.inr ⟨e, rfl⟩
    · exact Or.inl ⟨v, rfl⟩

/-- C7: every operation invocation calls connect() exactly once — whatever the
connect outcome and the engine, the provider call counter after the call is
exactly one more than before, so each invocation consumes exactly one fresh
connection bundle and no bundle is shared with any other invocation. -/
theorem fresh_connection_per_call
    {C R W : Type} (p : Svr3Connect C) (eng : PpssOps C R W)
    (password : Password) (secret : Secret) (max_tries : NonZeroU32)
    (share_set : OpaqueMaskedShareSet) (rng : R) (s : ProvState) (w : W) :
    (backup p eng password secret max_tries rng s w).2.1 =
      ⟨s.connectCount + 1⟩ ∧
    (restore p eng password share_set rng s w).2.1 = ⟨s.connectCount + 1⟩ ∧
    (remove p eng s w).2.1 = ⟨s.connectCount + 1⟩ ∧
    (query p eng s w).2.1 = ⟨s.connectCount + 1⟩ := by
  refine ⟨?_, ?_, ?_, ?_⟩ <;>
    [skip; skip; skip; skip] <;>
    · rcases h : p.connectOutcomes s.connectCount with e | conns <;>
        simp [backup, restore, remove, query, Svr3Connect.connect, h]

/-- C5: backup only accepts a 32-byte secret and a strictly positive, u32
sized max_tries, and forwards exactly these to the engine, so every invocation
of do_backup made through this layer satisfies secret length = 32 and
max_tries > 0: the MaxTries > 0 invariant cannot be violated here. -/
theorem backup_engine_preconditions
    {C R W : Type} (p : Svr3Connect C) (eng : PpssOps C R W)
    (password : Password) (secret : Secret) (max_tries : NonZeroU32)
    (rng : R) (s : ProvState) (w : W) (conns : C)
    (h : p.connectOutcomes s.connectCount = Except.ok conns) :
    secret.val.length = 32 ∧ 0 < max_tries.val ∧ max_tries.val < 2 ^ 32 ∧
    backup p eng password secret max_tries rng s w =
      ((eng.do_backup conns password secret max_tries rng w).1,
        ⟨s.connectCount + 1⟩,
        (eng.do_backup conns password secret max_tries rng w).2) := by
  refine ⟨secret.property, max_tries.property.1, max_tries.property.2, ?_⟩
  simp [backup, Svr3Connect.connect, h]

/-- Witness for C5. -/
theorem backup_engine_preconditions_witness :
    secretW.val.length = 32 ∧ 0 < maxTriesW.val ∧ maxTriesW.val < 2 ^ 32 ∧
    backup okProvider demoEngine passwordW secretW maxTriesW 0 ⟨0⟩ 0 =
      ((demoEngine.do_backup 7 passwordW secretW maxTriesW 0 0).1, ⟨1⟩,
        (demoEngine.do_backup 7 passwordW secretW maxTriesW 0 0).2) :=
  backup_engine_preconditions okProvider demoEngine passwordW secretW
    maxTriesW 0 ⟨0⟩ 0 7 rfl

/-- C6: the dispatcher is pure pass-through on its opaque inputs: whenever
connect() succeeds, the password and the ShareSet the engine receives are
exactly the ones the caller supplied — backup's result is do_backup applied
at the caller's password, and restore's result is do_restore applied at the
caller's password and share set, for every possible value of those inputs. -/
theorem password_shareset_passthrough
    {C R W : Type} (p : Svr3Connect C) (eng : PpssOps C R W)
    (password : Password) (secret : Secret) (max_tries : NonZeroU32)
    (share_set : OpaqueMaskedShareSet) (rng : R) (s : ProvState) (w : W)
    (conns : C) (h : p.connectOutcomes s.connectCount = Except.ok conns) :
    (backup p eng password secret max_tries rng s w).1 =
      (eng.do_backup conns password secret max_tries rng w).1 ∧
    (restore p eng password share_set rng s w).1 =
      (eng.do_restore conns password share_set rng w).1 := by
  constructor <;> simp [backup, restore, Svr3Connect.connect, h]

/-- Witness for C6. -/
theorem password_shareset_passthrough_witness :
    (backup okProvider demoEngine passwordW secretW maxTriesW 0 ⟨0⟩ 0).1 =
      (demoEngine.do_backup 7 passwordW secretW maxTriesW 0 0).1 ∧
    (restore okProvider demoEngine passwordW shareSetW 0 ⟨0⟩ 0).1 =
      (demoEngine.do_restore 7 passwordW shareSetW 0 0).1 :=
  password_shareset_passthrough okProvider demoEngine passwordW secretW
    maxTriesW shareSetW 0 ⟨0⟩ 0 7 rfl

/-- C9: each dispatched operation is deterministic given its collaborators:
two runs that see the same connect() outcome and the same engine response on
that outcome return the same result and world; and the dispatcher never draws
from the caller-supplied rng — when connect() fails the rng comes back
exactly as supplied, and when it succeeds the rng handed to the engine is the
caller's own (by C1-style forwarding, restated here for backup and restore). -/
theorem dispatch_deterministic
    {C R W : Type} (p q : Svr3Connect C) (eng fng : PpssOps C R W)
    (password : Password) (secret : Secret) (max_tries : NonZeroU32)
    (share_set : OpaqueMaskedShareSet) (rng : R) (s t : ProvState) (w : W)
    (hc : p.connectOutcomes s.connectCount = q.connectOutcomes t.connectCount)
    (hb : ∀ c, eng.do_backup c password secret max_tries rng w =
      fng.do_backup c password secret max_tries rng w)
    (hr : ∀ c, eng.do_restore c password share_set rng w =
      fng.do_restore c password share_set rng w)
    (hm : ∀ c, eng.do_remove c w = fng.do_remove c w)
    (hq : ∀ c, eng.do_query c w = fng.do_query c w) :
    (backup p eng password secret max_tries rng s w).1 =
      (backup q fng password secret max_tries rng t w).1 ∧
    (restore p eng password share_set rng s w).1 =
      (restore q fng password share_set rng t w).1 ∧
    (remove p eng s w).1 = (remove q fng t w).1 ∧
    (query p eng s w).1 = (query q fng t w).1 ∧
    (∀ e, p.connectOutcomes s.connectCount = Except.error e →
      (backup p eng password secret max_tries rng s w).1.2 = rng ∧
      (restore p eng password share_set rng s w).1.2 = rng) := by
  refine ⟨?_, ?_, ?_, ?_, ?_⟩
  · rcases h : p.connectOutcomes s.connectCount with e | conns <;>
      simp [backup, Svr3Connect.connect, h, ← hc, hb]
  · rcases h : p.connectOutcomes s.connectCount with e | conns <;>
      simp [restore, Svr3Connect.connect, h, ← hc, hr]
  · rcases h : p.connectOutcomes s.connectCount with e | conns <;>
      simp [remove, Svr3Connect.connect, h, ← hc, hm]
  · rcases h : p.connectOutcomes s.connectCount with e | conns <;>
      simp [query, Svr3Connect.connect, h, ← hc, hq]
  · intro e he
    constructor <;> simp [backup, restore, Svr3Connect.connect, he]

/-- Witness for C9: two providers with the same connect outcome at different
counters, and two engines agreeing at the parameters in use. -/
theorem dispatch_deterministic_witness :
    (backup okProvider demoEngine passwordW secretW maxTriesW 0 ⟨0⟩ 0).1 =
      (backup okProvider demoEngine passwordW secretW maxTriesW 0 ⟨5⟩ 0).1 ∧
    (restore okProvider demoEngine passwordW shareSetW 0 ⟨0⟩ 0).1 =
      (restore okProvider demoEngine passwordW shareSetW 0 ⟨5⟩ 0).1 ∧
    (remove okProvider demoEngine ⟨0⟩ 0).1 =
      (remove okProvider demoEngine ⟨5⟩ 0).1 ∧
    (query okProvider demoEngine ⟨0⟩ 0).1 =
      (query okProvider demoEngine ⟨5⟩ 0).1 ∧
    (∀ e, okProvider.connectOutcomes (ProvState.connectCount ⟨0⟩) =
        Except.error e →
      (backup okProvider demoEngine passwordW secretW maxTriesW 0 ⟨0⟩ 0).1.2 =
        0 ∧
      (restore okProvider demoEngine passwordW shareSetW 0 ⟨0⟩ 0).1.2 = 0) :=
  dispatch_deterministic okProvider okProvider demoEngine demoEngine
    passwordW secretW maxTriesW shareSetW 0 ⟨0⟩ ⟨5⟩ 0 rfl
    (fun _ => rfl) (fun _ => rfl) (fun _ => rfl) (fun _ => rfl)

/-- C10: query() and remove() accept no password and no ShareSet: their
results are fully determined by the connect() outcome, the engine and the
ambient world — on success the engine entry point receives only the
connection bundle the provider yielded for that call. -/
theorem query_remove_connection_determined
    {C R W : Type} (p : Svr3Connect C) (eng : PpssOps C R W)
    (s : ProvState) (w : W) (conns : C)
    (h : p.connectOutcomes s.connectCount = Except.ok conns) :
    remove p eng s w =
      ((eng.do_remove conns w).1, ⟨s.connectCount + 1⟩,
        (eng.do_remove conns w).2) ∧
    query p eng s w =
      ((eng.do_query conns w).1, ⟨s.connectCount + 1⟩,
        (eng.do_query conns w).2) := by
  constructor <;> simp [remove, query, Svr3Connect.connect, h]

/-- Witness for C10. -/
theorem query_remove_connection_determined_witness :
    remove okProvider demoEngine ⟨0⟩ 0 = (Except.ok (), ⟨1⟩, 30) ∧
    query okProvider demoEngine ⟨0⟩ 0 = (Except.ok 5, ⟨1⟩, 40) :=
  query_remove_connection_determined okProvider demoEngine ⟨0⟩ 0 7 rfl

/-- C2: for every max_tries > 0, password and 32-byte secret, backup followed
immediately by restore with the same password and the resulting ShareSet
(no intervening remove, tries not exhausted — guaranteed since the fresh
counter is max_tries > 0) recovers the original secret, for any provider
whose two connect() calls succeed. The engine is the spec-modelled one. -/
theorem backup_restore_roundtrip
    {C : Type} (p : Svr3Connect C)
    (password : Password) (secret : Secret) (max_tries : NonZeroU32)
    (rng : Nat → Nat) (s : ProvState) (w : ServerState) (c1 c2 : C)
    (h1 : p.connectOutcomes s.connectCount = Except.ok c1)
    (h2 : p.connectOutcomes (s.connectCount + 1) = Except.ok c2) :
    ∃ (ss : OpaqueMaskedShareSet) (rng1 : Nat → Nat) (w1 : ServerState),
      backup p (specEngine C) password secret max_tries rng s w =
        ((Except.ok ss, rng1), ⟨s.connectCount + 1⟩, w1) ∧
      (restore p (specEngine C) password ss rng1
          ⟨s.connectCount + 1⟩ w1).1.1 = Except.ok ⟨secret.val⟩ := by
  refine ⟨⟨maskBytes secret.val (genMask rng)⟩, fun n => rng (n + 32),
    ⟨some ⟨password, genMask rng, max_tries.val⟩⟩, ?_, ?_⟩
  · simp [backup, Svr3Connect.connect, h1, specEngine]
  · have hnz : max_tries.val ≠ 0 := Nat.pos_iff_ne_zero.mp max_tries.property.1
    have hlen : secret.val.length = (genMask rng).length := by
      rw [secret.property, genMask_length]
    simp [restore, Svr3Connect.connect, h2, specEngine, hnz,
      maskBytes_maskBytes secret.val (genMask rng) hlen]

/-- Witness for C2 at a concrete password, secret, try-limit and rng. -/
theorem backup_restore_roundtrip_witness :
    ∃ (ss : OpaqueMaskedShareSet) (rng1 : Nat → Nat) (w1 : ServerState),
      backup okProvider (specEngine Nat) passwordW secretW maxTriesW
          (fun n => n) ⟨0⟩ ⟨none⟩ =
        ((Except.ok ss, rng1), ⟨1⟩, w1) ∧
      (restore okProvider (specEngine Nat) passwordW ss rng1 ⟨1⟩ w1).1.1 =
        Except.ok ⟨secretW.val⟩ :=
  backup_restore_roundtrip okProvider passwordW secretW maxTriesW
    (fun n => n) ⟨0⟩ ⟨none⟩ 7 7 rfl rfl

/-- C8: query() takes no password, ShareSet or rng, returns the remaining
tries counter as an unsigned 32-bit quantity, and is read-only: under the
spec-modelled engine the server state after any query is exactly the server
state before it. -/
theorem query_readonly
    {C : Type} (p : Svr3Connect C) (s : ProvState) (w : ServerState)
    (conns : C) (r : BackupRecord)
    (h : p.connectOutcomes s.connectCount = Except.ok conns)
    (hw : w.stored = some r) (hr : r.tries < 2 ^ 32) :
    (query p (specEngine C) s w).1 = Except.ok r.tries ∧
    r.tries < 2 ^ 32 ∧
    (∀ v : ServerState, (query p (specEngine C) s v).2.2 = v) := by
  refine ⟨?_, hr, ?_⟩
  · simp [query, Svr3Connect.connect, h, specEngine, hw]
  · intro v
    rcases hv : v.stored with _ | rv <;>
      simp [query, Svr3Connect.connect, h, specEngine, hv]

/-- Witness for C8 at a concrete stored backup. -/
theorem query_readonly_witness :
    (query okProvider (specEngine Nat) ⟨0⟩
        ⟨some ⟨passwordW, [], 10⟩⟩).1 = Except.ok 10 ∧
    (10 : Nat) < 2 ^ 32 ∧
    (∀ v : ServerState,
      (query okProvider (specEngine Nat) ⟨0⟩ v).2.2 = v) :=
  query_readonly okProvider ⟨0⟩ ⟨some ⟨passwordW, [], 10⟩⟩ 7
    ⟨passwordW, [], 10⟩ rfl rfl (by decide)

end Svr3
